import Mathlib

/-!
Verification of the SMTP email subsystem of the IIOT device configuration
panel (source file `src/SMTP.cpp`).

Strings of the embedded C++ (`Arduino String`) are modelled as `List Char`;
bytes (`uint8_t`) as `Nat` values below 256.  The modem serial link is
modelled by an environment that supplies, for each blocking exchange, the
reply text the modem delivered within the timeout window (`none` = timeout
with no accepted token).  `waitFor`/`ATAcceptAny` accumulate inbound bytes
and succeed as soon as a sought token is a substring of the buffer, so on a
given delivered reply they succeed iff the token is a substring of it.
-/

namespace SMTPVerif

/-- Helper `isPrefB p s`: `p` is a leading segment of `s` (Arduino `String::startsWith`). -/
def isPrefB : List Char → List Char → Bool
  | [], _ => true
  | _ :: _, [] => false
  | a :: as, b :: bs => a == b && isPrefB as bs

/-- Helper `isSubB t s`: `t` occurs as a contiguous substring of `s`
(Arduino `String::indexOf t ≥ 0`). -/
def isSubB (t : List Char) : List Char → Bool
  | [] => t.isEmpty
  | c :: rs => isPrefB t (c :: rs) || isSubB t rs

/-- Characters removed by Arduino `String::trim` (C `isspace`). -/
def isWS (c : Char) : Bool :=
  c == ' ' || c == '\t' || c == '\n' || c == '\x0B' || c == '\x0C' || c == '\r'

/-- Arduino `String::trim`: strip leading and trailing whitespace. -/
def trimWS (s : List Char) : List Char :=
  ((s.dropWhile isWS).reverse.dropWhile isWS).reverse

/-- Split a buffer at each two-character "\r\n" separator, as the loop in
`SMTP::smtpExpect` does with `indexOf("\r\n", start)` / `substring`. -/
def splitCRLF : List Char → List (List Char)
  | [] => [[]]
  | '\r' :: '\n' :: rest => [] :: splitCRLF rest
  | ch :: rest =>
    match splitCRLF rest with
    | l :: ls => (ch :: l) :: ls
    | [] => [[ch]]

/-- The Base64 alphabet `B64ABC` of `SMTP.cpp`. -/
def B64ABC : List Char :=
  ("ABCDEFGHIJKLMNOPQRSTUVWXYZabcdefghijklmnopqrstuvwxyz0123456789+/").data

/-- Body of the inner `while (valb >= 0)` loop of `SMTP::b64`: emit the 6-bit
group `(val >> valb) & 0x3F` and decrease `valb` by 6 while it is
non-negative.  Structural recursion on a fuel argument so the kernel can
evaluate it; each iteration lowers `valb` by 6, so `(valb + 6).toNat` fuel
(supplied by `b64Emit`) is never exhausted before the loop guard fails. -/
def b64EmitCore (val : Nat) : Nat → Int → List Nat × Int
  | 0, valb => ([], valb)
  | fuel + 1, valb =>
    if 0 ≤ valb then
      let p := b64EmitCore val fuel (valb - 6)
      (((val >>> valb.toNat) % 64) :: p.1, p.2)
    else ([], valb)

/-- The inner emit loop of `SMTP::b64`; returns the emitted 6-bit indices and
the final `valb`. -/
def b64Emit (val : Nat) (valb : Int) : List Nat × Int :=
  b64EmitCore val (valb + 6).toNat valb

/-- The `for (uint8_t c : in)` loop of `SMTP::b64`: fold each input byte into
the accumulator `val = (val << 8) + c`, bump `valb` by 8 and run the emit
loop.  Returns emitted indices, final `val` and final `valb`. -/
def b64Go : List Nat → Nat → Int → List Nat × Nat × Int
  | [], val, valb => ([], val, valb)
  | c :: rest, val, valb =>
    let val2 := val * 256 + c
    let e := b64Emit val2 (valb + 8)
    let r := b64Go rest val2 e.2
    (e.1 ++ r.1, r.2)

/-- The tail fix-up of `SMTP::b64`:
`if (valb > -6) out += B64ABC[((val << 8) >> (valb + 8)) & 0x3F];`. -/
def b64Finish (val : Nat) (valb : Int) : List Nat :=
  if -6 < valb then [((val * 256) >>> (valb + 8).toNat) % 64] else []

/-- All 6-bit indices emitted by `SMTP::b64` on a byte string. -/
def b64Indices (s : List Nat) : List Nat :=
  let g := b64Go s 0 (-6)
  g.1 ++ b64Finish g.2.1 g.2.2

/-- The trailing `while (out.length() % 4) out += '=';` of `SMTP::b64`,
in closed form: append `'='` until the length is a multiple of 4. -/
def padEq (cs : List Char) : List Char :=
  cs ++ List.replicate ((4 - cs.length % 4) % 4) '='

/-- Encoder `SMTP::b64`: Base64-encode a byte string with the standard alphabet and
`'='` padding (source lines 181–191). -/
def b64 (s : List Nat) : List Char :=
  padEq ((b64Indices s).map (fun i => B64ABC.getD i ' '))

/-- Encoder `SMTP::b64` applied to the bytes of a text string, as the call sites
`b64(_gmail)` / `b64(_appPass)` do. -/
def b64s (s : List Char) : List Char := b64 (s.map Char.toNat)

example : b64 [77, 97, 110] = ("TWFu").data := by decide
example : b64 [104, 105] = ("aGk=").data := by decide
example : b64 [104] = ("aA==").data := by decide
example : b64 [] = [] := by decide

/-! ## Configuration and modem environment -/

/-- The per-message configuration fields `_apn`, `_gmail`, `_appPass`, `_to`,
`_toName`, `_fromName`, `_subject`, `_body` of class `SMTP`. -/
structure Config where
  apn : List Char
  gmail : List Char
  appPass : List Char
  toAddr : List Char
  toName : List Char
  fromName : List Char
  subject : List Char
  body : List Char

/-- Setter `SMTP::setAPN` (a null pointer becomes the empty string). -/
def setAPN (c : Config) (s : List Char) : Config := { c with apn := s }

/-- Setter `SMTP::setAuth`. -/
def setAuth (c : Config) (g p : List Char) : Config := { c with gmail := g, appPass := p }

/-- Setter `SMTP::setRecipient`. -/
def setRecipient (c : Config) (t n : List Char) : Config := { c with toAddr := t, toName := n }

/-- Setter `SMTP::setFromName`. -/
def setFromName (c : Config) (n : List Char) : Config := { c with fromName := n }

/-- Setter `SMTP::setSubject`. -/
def setSubject (c : Config) (s : List Char) : Config := { c with subject := s }

/-- Setter `SMTP::setBody`: the body is stored verbatim; no transformation. -/
def setBody (c : Config) (s : List Char) : Config := { c with body := s }

/-- Modem behaviour for one `sendEmail` call.  Each blocking exchange is given
the reply text the modem delivered inside that exchange's timeout window
(`none` = timeout).  `sendOk k` is whether the `k`-th channel send of the SMTP
session (prompt, raw write, terminal OK in `cchSendRaw`) succeeded, and
`reply k` is the chunk the `k`-th `cchRecvChunk` of `smtpExpect` produced. -/
structure Env where
  netopenReply : Option (List Char)
  cchstartReply : Option (List Char)
  cchopenReply : Option (List Char)
  sendOk : Nat → Bool
  reply : Nat → Option (List Char)

/-- Model of `SMTP::ATAcceptAny` on a delivered reply: succeed iff some non-empty
token of the set occurs in the accumulated buffer (timeout ⇒ `false`). -/
def atAny (reply : Option (List Char)) (toks : List (List Char)) : Bool :=
  match reply with
  | none => false
  | some r => toks.any (fun t => !t.isEmpty && isSubB t r)

/-- Accepting tokens of `AT+NETOPEN` in `SMTP::bringUpPDP` (line 104). -/
def netopenTokens : List (List Char) :=
  [("OK").data, ("+NETOPEN: 0").data,
   ("+IP ERROR: Network is already opened").data, ("already opened").data]

/-- Accepting tokens of `AT+CCHSTART` in `SMTP::cchStart` (line 118). -/
def cchstartTokens : List (List Char) := [("OK").data, ("ERROR").data]

/-- Accepting tokens of `AT+CCHOPEN` in `SMTP::cchOpen` (line 124):
`OK`, `+CCHOPEN`, and also `ERROR`. -/
def cchopenTokens : List (List Char) := [("OK").data, ("+CCHOPEN").data, ("ERROR").data]

/-- AT commands issued by the bring-up helpers (each constructor stands for
the literal command line of `SMTP.cpp`). -/
inductive ATCmd where
  /-- Command `ATE0`. -/
  | ate0
  /-- Command `AT+CMEE=2`. -/
  | cmee
  /-- Command `AT+CGDCONT=1,"IP","<apn>"`. -/
  | cgdcont (apn : List Char)
  /-- Command `AT+CSOCKSETPN=1`. -/
  | csocksetpn
  /-- Command `AT+NETOPEN`. -/
  | netopen
  /-- Command `AT+CSSLCFG="sslversion",0,3`. -/
  | sslVersion
  /-- Command `AT+CSSLCFG="authmode",0,0`. -/
  | sslAuthmode
  /-- Command `AT+CSSLCFG="ignorelocaltime",0,1`. -/
  | sslIgnoreLocalTime
  /-- Command `AT+CCHSTART`. -/
  | cchstartCmd
deriving DecidableEq

/-- Model of `SMTP::bringUpPDP` (lines 98–106): issue `ATE0`, `AT+CMEE=2`, the APN
context commands when an APN is set (their results are discarded by the
source), then a single `AT+NETOPEN` judged by `ATAcceptAny`.  Returns the
result together with the list of issued commands. -/
def bringUpPDP (c : Config) (e : Env) : Bool × List ATCmd :=
  (atAny e.netopenReply netopenTokens,
   [ATCmd.ate0, ATCmd.cmee]
     ++ (if c.apn.isEmpty then [] else [ATCmd.cgdcont c.apn, ATCmd.csocksetpn])
     ++ [ATCmd.netopen])

/-- Model of `SMTP::cchStart` (lines 114–120): three `AT+CSSLCFG` commands (results
discarded), then a single `AT+CCHSTART` judged by `ATAcceptAny`. -/
def cchStart (e : Env) : Bool × List ATCmd :=
  (atAny e.cchstartReply cchstartTokens,
   [ATCmd.sslVersion, ATCmd.sslAuthmode, ATCmd.sslIgnoreLocalTime, ATCmd.cchstartCmd])

/-- Model of `SMTP::cchOpen` (lines 122–128): issue `AT+CCHOPEN=<link>,"<host>",<port>`
and accept any of `cchopenTokens`; the host, port and link only shape the
command text, not the acceptance test. -/
def cchOpen (host : List Char) (port : Nat) (link : Nat) (e : Env) : Bool :=
  atAny e.cchopenReply cchopenTokens

/-! ## SMTP session -/

/-- Model of `SMTP::smtpExpect` (lines 194–212) applied to a received chunk: walk the
`"\r\n"`-delimited records, trim each, and succeed on the first non-empty one
that starts with the wanted status code. -/
def smtpExpect (chunk : List Char) (code : List Char) : Bool :=
  (splitCRLF chunk).any (fun l => !(trimWS l).isEmpty && isPrefB code (trimWS l))

/-- One `smtpExpect` step of the session: `cchRecvChunk` either times out
(`none`, step fails) or yields a chunk scanned by `smtpExpect`. -/
def gateE (e : Env) (k : Nat) (code : List Char) : Bool :=
  match e.reply k with
  | none => false
  | some chunk => smtpExpect chunk code

/-- Line 236 of the source: `"From: " + fromN + " <" + _gmail + ">\r\n"` with
`fromN = _fromName.length() ? _fromName : "ESP32"`. -/
def hdrFrom (c : Config) : List Char :=
  ("From: ").data ++ (if c.fromName.isEmpty then ("ESP32").data else c.fromName)
    ++ (" <").data ++ c.gmail ++ (">\r\n").data

/-- Line 237: `"To: " + toN + " <" + _to + ">\r\n"` with
`toN = _toName.length() ? _toName : "Recipient"`. -/
def hdrTo (c : Config) : List Char :=
  ("To: ").data ++ (if c.toName.isEmpty then ("Recipient").data else c.toName)
    ++ (" <").data ++ c.toAddr ++ (">\r\n").data

/-- Line 238: `"Subject: " + subj + "\r\n"` with
`subj = _subject.length() ? _subject : "No Subject"`. -/
def hdrSubject (c : Config) : List Char :=
  ("Subject: ").data ++ (if c.subject.isEmpty then ("No Subject").data else c.subject)
    ++ ("\r\n").data

/-- The message payload composed in `SMTP::smtpSession` (lines 230–243):
headers with the `"ESP32"` / `"Recipient"` / `"No Subject"` fall-backs for
empty fields, the fixed MIME headers, a blank line, the body verbatim, and
the `"\r\n.\r\n"` terminator. -/
def composePayload (c : Config) : List Char :=
  hdrFrom c ++ hdrTo c ++ hdrSubject c
  ++ ("MIME-Version: 1.0\r\n").data
  ++ ("Content-Type: text/plain; charset=UTF-8\r\n").data
  ++ ("\r\n").data
  ++ c.body
  ++ ("\r\n.\r\n").data

/-- The wire bytes of the nine channel sends of `SMTP::smtpSession`, in
order: `cchSendLine` appends `"\r\n"`, the DATA payload goes out raw through
`cchSendRaw`. -/
def sessCmds (c : Config) : List (List Char) :=
  [("EHLO simcom\r\n").data,
   ("AUTH LOGIN\r\n").data,
   b64s c.gmail ++ ("\r\n").data,
   b64s c.appPass ++ ("\r\n").data,
   ("MAIL FROM:<").data ++ c.gmail ++ (">\r\n").data,
   ("RCPT TO:<").data ++ c.toAddr ++ (">\r\n").data,
   ("DATA\r\n").data,
   composePayload c,
   ("QUIT\r\n").data]

/-- The status code the `k`-th `smtpExpect` of the session requires. -/
def expCodes : List (List Char) :=
  [("220").data, ("250").data, ("334").data, ("334").data, ("235").data,
   ("250").data, ("250").data, ("354").data, ("250").data, ("221").data]

/-- The `k`-th expect step of the session against environment `e`. -/
def stepGate (e : Env) (k : Nat) : Bool := gateE e k (expCodes.getD k [])

/-- Model of `SMTP::smtpSession` (lines 214–250): the linear chain of
expect/send steps, each `if (!x) return false;` of the source in order.
The returned list is the wire data of every channel send that was issued
(a send that fails is still issued).  The trailing `QUIT` send and the `221`
expect are performed but their results are discarded (lines 247–249). -/
def smtpSession (c : Config) (e : Env) : Bool × List (List Char) :=
  if gateE e 0 (("220").data) = false then (false, (sessCmds c).take 0) else
  if e.sendOk 0 = false then (false, (sessCmds c).take 1) else
  if gateE e 1 (("250").data) = false then (false, (sessCmds c).take 1) else
  if e.sendOk 1 = false then (false, (sessCmds c).take 2) else
  if gateE e 2 (("334").data) = false then (false, (sessCmds c).take 2) else
  if e.sendOk 2 = false then (false, (sessCmds c).take 3) else
  if gateE e 3 (("334").data) = false then (false, (sessCmds c).take 3) else
  if e.sendOk 3 = false then (false, (sessCmds c).take 4) else
  if gateE e 4 (("235").data) = false then (false, (sessCmds c).take 4) else
  if e.sendOk 4 = false then (false, (sessCmds c).take 5) else
  if gateE e 5 (("250").data) = false then (false, (sessCmds c).take 5) else
  if e.sendOk 5 = false then (false, (sessCmds c).take 6) else
  if gateE e 6 (("250").data) = false then (false, (sessCmds c).take 6) else
  if e.sendOk 6 = false then (false, (sessCmds c).take 7) else
  if gateE e 7 (("354").data) = false then (false, (sessCmds c).take 7) else
  if e.sendOk 7 = false then (false, (sessCmds c).take 8) else
  if gateE e 8 (("250").data) = false then (false, (sessCmds c).take 8) else
  (true, sessCmds c)

/-! ## Orchestrator -/

/-- The stage-level calls `SMTP::sendEmail` can make (lines 253–263); all
modem I/O of `sendEmail` happens inside these callees. -/
inductive Call where
  | bringUpPDPCall
  | tearDownPDPCall
  | cchStartCall
  | cchStopCall
  | cchOpenCall (host : List Char) (port : Nat) (link : Nat)
  | cchCloseCall (link : Nat)
  | smtpSessionCall
deriving DecidableEq

/-- The fixed host of the `cchOpen` call in `SMTP::sendEmail` (line 257). -/
def gmailHost : List Char := ("smtp.gmail.com").data

/-- Constant `static const int LINK_ID = 0;` (line 16). -/
def LINK_ID : Nat := 0

/-- The mandatory-field guard of `SMTP::sendEmail` (line 254):
`_gmail.isEmpty() || _appPass.isEmpty() || _to.isEmpty()`. -/
def guardFail (c : Config) : Bool :=
  c.gmail.isEmpty || c.appPass.isEmpty || c.toAddr.isEmpty

/-- Model of `SMTP::sendEmail` (lines 253–263): guard on the three mandatory fields,
then bring-up → TLS start → channel open → SMTP session with the source's
cleanup calls on each path.  The list records every stage call, in order. -/
def sendEmail (c : Config) (e : Env) : Bool × List Call :=
  if guardFail c then (false, [])
  else if (bringUpPDP c e).1 = false then (false, [Call.bringUpPDPCall])
  else if (cchStart e).1 = false then
    (false, [Call.bringUpPDPCall, Call.cchStartCall, Call.tearDownPDPCall])
  else if cchOpen gmailHost 465 LINK_ID e = false then
    (false, [Call.bringUpPDPCall, Call.cchStartCall, Call.cchOpenCall gmailHost 465 LINK_ID,
             Call.cchStopCall, Call.tearDownPDPCall])
  else
    ((smtpSession c e).1,
     [Call.bringUpPDPCall, Call.cchStartCall, Call.cchOpenCall gmailHost 465 LINK_ID,
      Call.smtpSessionCall, Call.cchCloseCall LINK_ID, Call.cchStopCall, Call.tearDownPDPCall])

/-! ## Spec-side definitions

These follow the wording of the specification, for comparison with the
definitions embedded from the source. -/

/-- Standard Base64 of a byte string, three input bytes per four 6-bit
groups, as the specification's "standard Base64" reference point. -/
def encB : List Nat → List Nat
  | [] => []
  | [a] => [a / 4, a % 4 * 16]
  | [a, b] => [a / 4, a % 4 * 16 + b / 16, b % 16 * 4]
  | a :: b :: c :: rest =>
    [a / 4, a % 4 * 16 + b / 16, b % 16 * 4 + c / 64, c % 64] ++ encB rest

/-- Standard Base64 decoding of a 6-bit group sequence: four groups yield
three bytes; a final pair or triple (padded input) yields one or two. -/
def decSextets : List Nat → List Nat
  | w :: x :: y :: z :: rest =>
    [w * 4 + x / 16, x % 16 * 16 + y / 4, y % 4 * 64 + z] ++ decSextets rest
  | [w, x] => [w * 4 + x / 16]
  | [w, x, y] => [w * 4 + x / 16, x % 16 * 16 + y / 4]
  | _ => []

/-- Position of a character in the standard Base64 alphabet. -/
def b64CharIndex (c : Char) : Nat := B64ABC.findIdx (fun x => x == c)

/-- Standard Base64 decoding of a text: drop the `'='` padding, map each
character to its alphabet position, regroup the 6-bit values into bytes. -/
def b64decode (s : List Char) : List Nat :=
  decSextets ((s.filter (fun ch => !(ch == '='))).map b64CharIndex)

/-- A bare LF: an `'\n'` that is not preceded by `'\r'` (scanning with the
previous character). -/
def hasBareLFAux (prev : Char) : List Char → Bool
  | [] => false
  | ch :: rest => ((ch == '\n') && !(prev == '\r')) || hasBareLFAux ch rest

/-- Whether a text contains a line-feed character not preceded by a carriage
return (an `'\n'` at the very start counts as bare). -/
def hasBareLF (s : List Char) : Bool := hasBareLFAux 'x' s

/-! ## Base64: the source encoder agrees with standard Base64 -/

theorem b64Emit_neg (val : Nat) (valb : Int) (h : valb < 0) :
    b64Emit val valb = ([], valb) := by
  unfold b64Emit
  rcases hn : (valb + 6).toNat with _ | fuel
  · rfl
  · simp only [b64EmitCore]
    rw [if_neg (by omega)]

theorem b64Emit_two (val : Nat) : b64Emit val 2 = ([val / 4 % 64], -4) := by
  norm_num [b64Emit, b64EmitCore, Nat.shiftRight_eq_div_pow,
    (show ((2 : Int)).toNat = 2 from rfl)]

theorem b64Emit_four (val : Nat) : b64Emit val 4 = ([val / 16 % 64], -2) := by
  norm_num [b64Emit, b64EmitCore, Nat.shiftRight_eq_div_pow,
    (show ((4 : Int)).toNat = 4 from rfl)]

theorem b64Emit_six (val : Nat) : b64Emit val 6 = ([val / 64 % 64, val % 64], -6) := by
  norm_num [b64Emit, b64EmitCore, Nat.shiftRight_eq_div_pow,
    (show ((6 : Int)).toNat = 6 from rfl), (show ((0 : Int)).toNat = 0 from rfl)]

/-- On a byte input, the 6-bit indices emitted by the source's encoder loop
(started from any accumulator value `val`, since only the low bits of `val`
reach the output) are exactly the standard Base64 groups. -/
theorem b64Go_spec (s : List Nat) (h : ∀ x ∈ s, x < 256) : ∀ val : Nat,
    (b64Go s val (-6)).1 ++ b64Finish (b64Go s val (-6)).2.1 (b64Go s val (-6)).2.2
      = encB s := by
  induction s using encB.induct with
  | case1 =>
    intro val
    simp [b64Go, b64Finish, encB]
  | case2 a =>
    intro val
    have ha : a < 256 := h a (by simp)
    have e1 : ((-6 : Int) + 8) = 2 := by norm_num
    simp only [b64Go, e1, b64Emit_two, b64Finish, encB]
    rw [if_pos (by norm_num)]
    norm_num [Nat.shiftRight_eq_div_pow, (show ((-4 : Int) + 8).toNat = 4 from rfl),
      (show ((4 : Int)).toNat = 4 from rfl)]
    omega
  | case3 a b =>
    intro val
    have ha : a < 256 := h a (by simp)
    have hb : b < 256 := h b (by simp)
    have e1 : ((-6 : Int) + 8) = 2 := by norm_num
    have e2 : ((-4 : Int) + 8) = 4 := by norm_num
    simp only [b64Go, e1, e2, b64Emit_two, b64Emit_four, b64Finish, encB]
    rw [if_pos (by norm_num)]
    norm_num [Nat.shiftRight_eq_div_pow, (show ((-2 : Int) + 8).toNat = 6 from rfl),
      (show ((6 : Int)).toNat = 6 from rfl)]
    omega
  | case4 a b c rest ih =>
    intro val
    have ha : a < 256 := h a (by simp)
    have hb : b < 256 := h b (by simp)
    have hc : c < 256 := h c (by simp)
    have hrest : ∀ x ∈ rest, x < 256 := fun x hx => h x (by simp [hx])
    have e1 : ((-6 : Int) + 8) = 2 := by norm_num
    have e2 : ((-4 : Int) + 8) = 4 := by norm_num
    have e3 : ((-2 : Int) + 8) = 6 := by norm_num
    simp only [b64Go, e1, e2, e3, b64Emit_two, b64Emit_four, b64Emit_six, encB]
    rw [List.append_assoc, List.append_assoc, List.append_assoc]
    simp only [List.cons_append, List.nil_append]
    have := ih hrest (((val * 256 + a) * 256 + b) * 256 + c)
    rw [this]
    simp only [List.cons.injEq]
    exact ⟨by omega, by omega, by omega, by omega, trivial⟩

/-- The index stream of the source encoder is standard Base64. -/
theorem b64Indices_eq_encB (s : List Nat) (h : ∀ x ∈ s, x < 256) :
    b64Indices s = encB s := by
  have := b64Go_spec s h 0
  simpa [b64Indices] using this

/-- Every standard Base64 group of a byte string is below 64. -/
theorem encB_lt (s : List Nat) (h : ∀ x ∈ s, x < 256) : ∀ i ∈ encB s, i < 64 := by
  induction s using encB.induct with
  | case1 => simp [encB]
  | case2 a =>
    have ha : a < 256 := h a (by simp)
    simp only [encB, List.mem_cons, List.not_mem_nil, or_false]
    rintro i (rfl | rfl) <;> omega
  | case3 a b =>
    have ha : a < 256 := h a (by simp)
    have hb : b < 256 := h b (by simp)
    simp only [encB, List.mem_cons, List.not_mem_nil, or_false]
    rintro i (rfl | rfl | rfl) <;> omega
  | case4 a b c rest ih =>
    have ha : a < 256 := h a (by simp)
    have hb : b < 256 := h b (by simp)
    have hc : c < 256 := h c (by simp)
    have hrest : ∀ x ∈ rest, x < 256 := fun x hx => h x (by simp [hx])
    simp only [encB, List.cons_append, List.nil_append, List.mem_cons]
    rintro i (rfl | rfl | rfl | rfl | hmem)
    · omega
    · omega
    · omega
    · omega
    · exact ih hrest i hmem

/-- Standard decoding of the standard groups recovers the bytes. -/
theorem decSextets_encB (s : List Nat) (h : ∀ x ∈ s, x < 256) :
    decSextets (encB s) = s := by
  induction s using encB.induct with
  | case1 => simp [encB, decSextets]
  | case2 a =>
    have ha : a < 256 := h a (by simp)
    simp only [encB, decSextets, List.cons.injEq]
    exact ⟨by omega, trivial⟩
  | case3 a b =>
    have ha : a < 256 := h a (by simp)
    have hb : b < 256 := h b (by simp)
    simp only [encB, decSextets, List.cons.injEq]
    exact ⟨by omega, by omega, trivial⟩
  | case4 a b c rest ih =>
    have ha : a < 256 := h a (by simp)
    have hb : b < 256 := h b (by simp)
    have hc : c < 256 := h c (by simp)
    have hrest : ∀ x ∈ rest, x < 256 := fun x hx => h x (by simp [hx])
    simp only [encB, List.cons_append, List.nil_append, decSextets, List.cons.injEq]
    exact ⟨by omega, by omega, by omega, ih hrest⟩

/-- Looking an alphabet character back up recovers its index. -/
theorem b64CharIndex_getD : ∀ i : Fin 64, b64CharIndex (B64ABC.getD i.1 ' ') = i.1 := by
  decide

/-- Alphabet characters are in the alphabet. -/
theorem b64_getD_mem : ∀ i : Fin 64, B64ABC.getD i.1 ' ' ∈ B64ABC := by
  decide

/-- No alphabet character is the padding character. -/
theorem b64_getD_ne_pad : ∀ i : Fin 64, ¬(B64ABC.getD i.1 ' ' = '=') := by
  decide

theorem filter_ne_pad_replicate (n : Nat) :
    List.filter (fun ch => !(ch == '=')) (List.replicate n '=') = [] := by
  induction n with
  | zero => rfl
  | succ k ih => simp [List.replicate_succ, ih]

theorem map_index_back (l : List Nat) (hl : ∀ i ∈ l, i < 64) :
    l.map (fun i => b64CharIndex (B64ABC.getD i ' ')) = l := by
  induction l with
  | nil => rfl
  | cons x xs ih =>
    have hx : x < 64 := hl x (by simp)
    have hxs : ∀ i ∈ xs, i < 64 := fun i hi => hl i (by simp [hi])
    simp only [List.map_cons, ih hxs, List.cons.injEq, and_true]
    exact b64CharIndex_getD ⟨x, hx⟩

/-- Claim C7: For every byte string, including lengths not a multiple of 3,
`SMTP::b64` produces output over the standard Base64 alphabet, `'='`-padded
to a multiple of four characters with no line wrapping, and standard Base64
decoding of the output reproduces the input bytes exactly. -/
theorem b64_std_roundtrip (s : List Nat) (h : ∀ x ∈ s, x < 256) :
    (b64 s).length % 4 = 0
      ∧ (∀ ch ∈ b64 s, ch ∈ B64ABC ∨ ch = '=')
      ∧ b64decode (b64 s) = s := by
  have hlt : ∀ i ∈ b64Indices s, i < 64 := by
    rw [b64Indices_eq_encB s h]; exact encB_lt s h
  have hchars : ∀ ch ∈ (b64Indices s).map (fun i => B64ABC.getD i ' '),
      ch ∈ B64ABC ∧ ¬(ch = '=') := by
    intro ch hch
    rcases List.mem_map.mp hch with ⟨i, hi, rfl⟩
    have hi64 : i < 64 := hlt i hi
    exact ⟨b64_getD_mem ⟨i, hi64⟩, b64_getD_ne_pad ⟨i, hi64⟩⟩
  refine ⟨?_, ?_, ?_⟩
  · simp only [b64, padEq, List.length_append, List.length_replicate]
    omega
  · intro ch hch
    simp only [b64, padEq] at hch
    rcases List.mem_append.mp hch with hl | hr
    · exact Or.inl (hchars ch hl).1
    · exact Or.inr (List.eq_of_mem_replicate hr)
  · simp only [b64decode, b64, padEq, List.filter_append]
    rw [filter_ne_pad_replicate]
    rw [List.filter_eq_self.mpr (by intro a ha; simpa using (hchars a ha).2)]
    rw [List.append_nil, List.map_map]
    have : ((fun c => b64CharIndex c) ∘ fun i => B64ABC.getD i ' ')
        = fun i => b64CharIndex (B64ABC.getD i ' ') := rfl
    rw [this, map_index_back _ hlt, b64Indices_eq_encB s h, decSextets_encB s h]

/-- Witness for `b64_std_roundtrip` at the concrete byte string `[104, 105]`
(length not a multiple of 3). -/
theorem b64_std_roundtrip_witness :
    (∀ x ∈ ([104, 105] : List Nat), x < 256)
      ∧ b64decode (b64 [104, 105]) = [104, 105] := by
  have h : ∀ x ∈ ([104, 105] : List Nat), x < 256 := by decide
  exact ⟨h, (b64_std_roundtrip [104, 105] h).2.2⟩

/-- Claim C8: The session result is determined solely by the gates up to and
including the post-DATA `250` acknowledgement: `smtpSession` returns `true`
iff every expect step through the post-DATA `250` matched and every send
through the payload succeeded.  Neither the `QUIT` send (`sendOk 8`) nor a
`221` reply (`reply 9`) occurs on the right-hand side, so reaching the
post-DATA `250` yields `true` regardless of the QUIT exchange. -/
theorem smtpSession_success_iff (c : Config) (e : Env) :
    (smtpSession c e).1 = true ↔
      (gateE e 0 (("220").data) = true ∧ e.sendOk 0 = true ∧
       gateE e 1 (("250").data) = true ∧ e.sendOk 1 = true ∧
       gateE e 2 (("334").data) = true ∧ e.sendOk 2 = true ∧
       gateE e 3 (("334").data) = true ∧ e.sendOk 3 = true ∧
       gateE e 4 (("235").data) = true ∧ e.sendOk 4 = true ∧
       gateE e 5 (("250").data) = true ∧ e.sendOk 5 = true ∧
       gateE e 6 (("250").data) = true ∧ e.sendOk 6 = true ∧
       gateE e 7 (("354").data) = true ∧ e.sendOk 7 = true ∧
       gateE e 8 (("250").data) = true) := by
  unfold smtpSession
  cases h0 : gateE e 0 (("220").data) with
  | false => simp [h0]
  | true =>
    cases h1 : e.sendOk 0 with
    | false => simp [h0, h1]
    | true =>
      cases h2 : gateE e 1 (("250").data) with
      | false => simp [h0, h1, h2]
      | true =>
        cases h3 : e.sendOk 1 with
        | false => simp [h0, h1, h2, h3]
        | true =>
          cases h4 : gateE e 2 (("334").data) with
          | false => simp [h0, h1, h2, h3, h4]
          | true =>
            cases h5 : e.sendOk 2 with
            | false => simp [h0, h1, h2, h3, h4, h5]
            | true =>
              cases h6 : gateE e 3 (("334").data) with
              | false => simp [h0, h1, h2, h3, h4, h5, h6]
              | true =>
                cases h7 : e.sendOk 3 with
                | false => simp [h0, h1, h2, h3, h4, h5, h6, h7]
                | true =>
                  cases h8 : gateE e 4 (("235").data) with
                  | false => simp [h0, h1, h2, h3, h4, h5, h6, h7, h8]
                  | true =>
                    cases h9 : e.sendOk 4 with
                    | false => simp [h0, h1, h2, h3, h4, h5, h6, h7, h8, h9]
                    | true =>
                      cases h10 : gateE e 5 (("250").data) with
                      | false => simp [h0, h1, h2, h3, h4, h5, h6, h7, h8, h9, h10]
                      | true =>
                        cases h11 : e.sendOk 5 with
                        | false => simp [h0, h1, h2, h3, h4, h5, h6, h7, h8, h9, h10, h11]
                        | true =>
                          cases h12 : gateE e 6 (("250").data) with
                          | false => simp [h0, h1, h2, h3, h4, h5, h6, h7, h8, h9, h10, h11, h12]
                          | true =>
                            cases h13 : e.sendOk 6 with
                            | false => simp [h0, h1, h2, h3, h4, h5, h6, h7, h8, h9, h10, h11, h12, h13]
                            | true =>
                              cases h14 : gateE e 7 (("354").data) with
                              | false => simp [h0, h1, h2, h3, h4, h5, h6, h7, h8, h9, h10, h11, h12, h13, h14]
                              | true =>
                                cases h15 : e.sendOk 7 with
                                | false => simp [h0, h1, h2, h3, h4, h5, h6, h7, h8, h9, h10, h11, h12, h13, h14, h15]
                                | true =>
                                  cases h16 : gateE e 8 (("250").data) with
                                  | false => simp [h0, h1, h2, h3, h4, h5, h6, h7, h8, h9, h10, h11, h12, h13, h14, h15, h16]
                                  | true =>
                                    simp [h0, h1, h2, h3, h4, h5, h6, h7, h8, h9, h10, h11, h12, h13, h14, h15, h16]

/-- Claim C6: `smtpExpect` splits the received chunk at each CRLF, trims every
record, and accepts iff some non-empty record starts with the required status
code; and in `smtpSession`, when the expect of step `i` fails after every
earlier step succeeded, the session returns `false` having issued exactly the
first `i` commands — no further SMTP command is sent in that call. -/
theorem smtpExpect_line_gating :
    (∀ (chunk code : List Char),
        smtpExpect chunk code = true ↔
          ∃ l ∈ splitCRLF chunk, ¬(trimWS l = []) ∧ isPrefB code (trimWS l) = true)
      ∧ (∀ (c : Config) (e : Env) (i : Nat), i ≤ 8 →
          (∀ j, j < i → stepGate e j = true ∧ e.sendOk j = true) →
          stepGate e i = false →
          smtpSession c e = (false, (sessCmds c).take i)) := by
  constructor
  · intro chunk code
    simp [smtpExpect, List.any_eq_true, List.isEmpty_iff]
  · intro c e i hle hpre hfail
    interval_cases i
    · -- the expect for "220" (step 0) fails
      have gk : gateE e 0 (("220").data) = false := by
        simpa [stepGate, expCodes] using hfail
      simp [smtpSession, gk]
    · -- the expect for "250" (step 1) fails
      have g0 : gateE e 0 (("220").data) = true := by
        simpa [stepGate, expCodes] using (hpre 0 (by omega)).1
      have s0 : e.sendOk 0 = true := (hpre 0 (by omega)).2
      have gk : gateE e 1 (("250").data) = false := by
        simpa [stepGate, expCodes] using hfail
      simp [smtpSession, g0, s0, gk]
    · -- the expect for "334" (step 2) fails
      have g0 : gateE e 0 (("220").data) = true := by
        simpa [stepGate, expCodes] using (hpre 0 (by omega)).1
      have s0 : e.sendOk 0 = true := (hpre 0 (by omega)).2
      have g1 : gateE e 1 (("250").data) = true := by
        simpa [stepGate, expCodes] using (hpre 1 (by omega)).1
      have s1 : e.sendOk 1 = true := (hpre 1 (by omega)).2
      have gk : gateE e 2 (("334").data) = false := by
        simpa [stepGate, expCodes] using hfail
      simp [smtpSession, g0, s0, g1, s1, gk]
    · -- the expect for "334" (step 3) fails
      have g0 : gateE e 0 (("220").data) = true := by
        simpa [stepGate, expCodes] using (hpre 0 (by omega)).1
      have s0 : e.sendOk 0 = true := (hpre 0 (by omega)).2
      have g1 : gateE e 1 (("250").data) = true := by
        simpa [stepGate, expCodes] using (hpre 1 (by omega)).1
      have s1 : e.sendOk 1 = true := (hpre 1 (by omega)).2
      have g2 : gateE e 2 (("334").data) = true := by
        simpa [stepGate, expCodes] using (hpre 2 (by omega)).1
      have s2 : e.sendOk 2 = true := (hpre 2 (by omega)).2
      have gk : gateE e 3 (("334").data) = false := by
        simpa [stepGate, expCodes] using hfail
      simp [smtpSession, g0, s0, g1, s1, g2, s2, gk]
    · -- the expect for "235" (step 4) fails
      have g0 : gateE e 0 (("220").data) = true := by
        simpa [stepGate, expCodes] using (hpre 0 (by omega)).1
      have s0 : e.sendOk 0 = true := (hpre 0 (by omega)).2
      have g1 : gateE e 1 (("250").data) = true := by
        simpa [stepGate, expCodes] using (hpre 1 (by omega)).1
      have s1 : e.sendOk 1 = true := (hpre 1 (by omega)).2
      have g2 : gateE e 2 (("334").data) = true := by
        simpa [stepGate, expCodes] using (hpre 2 (by omega)).1
      have s2 : e.sendOk 2 = true := (hpre 2 (by omega)).2
      have g3 : gateE e 3 (("334").data) = true := by
        simpa [stepGate, expCodes] using (hpre 3 (by omega)).1
      have s3 : e.sendOk 3 = true := (hpre 3 (by omega)).2
      have gk : gateE e 4 (("235").data) = false := by
        simpa [stepGate, expCodes] using hfail
      simp [smtpSession, g0, s0, g1, s1, g2, s2, g3, s3, gk]
    · -- the expect for "250" (step 5) fails
      have g0 : gateE e 0 (("220").data) = true := by
        simpa [stepGate, expCodes] using (hpre 0 (by omega)).1
      have s0 : e.sendOk 0 = true := (hpre 0 (by omega)).2
      have g1 : gateE e 1 (("250").data) = true := by
        simpa [stepGate, expCodes] using (hpre 1 (by omega)).1
      have s1 : e.sendOk 1 = true := (hpre 1 (by omega)).2
      have g2 : gateE e 2 (("334").data) = true := by
        simpa [stepGate, expCodes] using (hpre 2 (by omega)).1
      have s2 : e.sendOk 2 = true := (hpre 2 (by omega)).2
      have g3 : gateE e 3 (("334").data) = true := by
        simpa [stepGate, expCodes] using (hpre 3 (by omega)).1
      have s3 : e.sendOk 3 = true := (hpre 3 (by omega)).2
      have g4 : gateE e 4 (("235").data) = true := by
        simpa [stepGate, expCodes] using (hpre 4 (by omega)).1
      have s4 : e.sendOk 4 = true := (hpre 4 (by omega)).2
      have gk : gateE e 5 (("250").data) = false := by
        simpa [stepGate, expCodes] using hfail
      simp [smtpSession, g0, s0, g1, s1, g2, s2, g3, s3, g4, s4, gk]
    · -- the expect for "250" (step 6) fails
      have g0 : gateE e 0 (("220").data) = true := by
        simpa [stepGate, expCodes] using (hpre 0 (by omega)).1
      have s0 : e.sendOk 0 = true := (hpre 0 (by omega)).2
      have g1 : gateE e 1 (("250").data) = true := by
        simpa [stepGate, expCodes] using (hpre 1 (by omega)).1
      have s1 : e.sendOk 1 = true := (hpre 1 (by omega)).2
      have g2 : gateE e 2 (("334").data) = true := by
        simpa [stepGate, expCodes] using (hpre 2 (by omega)).1
      have s2 : e.sendOk 2 = true := (hpre 2 (by omega)).2
      have g3 : gateE e 3 (("334").data) = true := by
        simpa [stepGate, expCodes] using (hpre 3 (by omega)).1
      have s3 : e.sendOk 3 = true := (hpre 3 (by omega)).2
      have g4 : gateE e 4 (("235").data) = true := by
        simpa [stepGate, expCodes] using (hpre 4 (by omega)).1
      have s4 : e.sendOk 4 = true := (hpre 4 (by omega)).2
      have g5 : gateE e 5 (("250").data) = true := by
        simpa [stepGate, expCodes] using (hpre 5 (by omega)).1
      have s5 : e.sendOk 5 = true := (hpre 5 (by omega)).2
      have gk : gateE e 6 (("250").data) = false := by
        simpa [stepGate, expCodes] using hfail
      simp [smtpSession, g0, s0, g1, s1, g2, s2, g3, s3, g4, s4, g5, s5, gk]
    · -- the expect for "354" (step 7) fails
      have g0 : gateE e 0 (("220").data) = true := by
        simpa [stepGate, expCodes] using (hpre 0 (by omega)).1
      have s0 : e.sendOk 0 = true := (hpre 0 (by omega)).2
      have g1 : gateE e 1 (("250").data) = true := by
        simpa [stepGate, expCodes] using (hpre 1 (by omega)).1
      have s1 : e.sendOk 1 = true := (hpre 1 (by omega)).2
      have g2 : gateE e 2 (("334").data) = true := by
        simpa [stepGate, expCodes] using (hpre 2 (by omega)).1
      have s2 : e.sendOk 2 = true := (hpre 2 (by omega)).2
      have g3 : gateE e 3 (("334").data) = true := by
        simpa [stepGate, expCodes] using (hpre 3 (by omega)).1
      have s3 : e.sendOk 3 = true := (hpre 3 (by omega)).2
      have g4 : gateE e 4 (("235").data) = true := by
        simpa [stepGate, expCodes] using (hpre 4 (by omega)).1
      have s4 : e.sendOk 4 = true := (hpre 4 (by omega)).2
      have g5 : gateE e 5 (("250").data) = true := by
        simpa [stepGate, expCodes] using (hpre 5 (by omega)).1
      have s5 : e.sendOk 5 = true := (hpre 5 (by omega)).2
      have g6 : gateE e 6 (("250").data) = true := by
        simpa [stepGate, expCodes] using (hpre 6 (by omega)).1
      have s6 : e.sendOk 6 = true := (hpre 6 (by omega)).2
      have gk : gateE e 7 (("354").data) = false := by
        simpa [stepGate, expCodes] using hfail
      simp [smtpSession, g0, s0, g1, s1, g2, s2, g3, s3, g4, s4, g5, s5, g6, s6, gk]
    · -- the expect for "250" (step 8) fails
      have g0 : gateE e 0 (("220").data) = true := by
        simpa [stepGate, expCodes] using (hpre 0 (by omega)).1
      have s0 : e.sendOk 0 = true := (hpre 0 (by omega)).2
      have g1 : gateE e 1 (("250").data) = true := by
        simpa [stepGate, expCodes] using (hpre 1 (by omega)).1
      have s1 : e.sendOk 1 = true := (hpre 1 (by omega)).2
      have g2 : gateE e 2 (("334").data) = true := by
        simpa [stepGate, expCodes] using (hpre 2 (by omega)).1
      have s2 : e.sendOk 2 = true := (hpre 2 (by omega)).2
      have g3 : gateE e 3 (("334").data) = true := by
        simpa [stepGate, expCodes] using (hpre 3 (by omega)).1
      have s3 : e.sendOk 3 = true := (hpre 3 (by omega)).2
      have g4 : gateE e 4 (("235").data) = true := by
        simpa [stepGate, expCodes] using (hpre 4 (by omega)).1
      have s4 : e.sendOk 4 = true := (hpre 4 (by omega)).2
      have g5 : gateE e 5 (("250").data) = true := by
        simpa [stepGate, expCodes] using (hpre 5 (by omega)).1
      have s5 : e.sendOk 5 = true := (hpre 5 (by omega)).2
      have g6 : gateE e 6 (("250").data) = true := by
        simpa [stepGate, expCodes] using (hpre 6 (by omega)).1
      have s6 : e.sendOk 6 = true := (hpre 6 (by omega)).2
      have g7 : gateE e 7 (("354").data) = true := by
        simpa [stepGate, expCodes] using (hpre 7 (by omega)).1
      have s7 : e.sendOk 7 = true := (hpre 7 (by omega)).2
      have gk : gateE e 8 (("250").data) = false := by
        simpa [stepGate, expCodes] using hfail
      simp [smtpSession, g0, s0, g1, s1, g2, s2, g3, s3, g4, s4, g5, s5, g6, s6, g7, s7, gk]

/-! ## Concrete configurations and environments used as test points -/

/-- The configuration of the specification's Scenario A. -/
def cfgA : Config :=
  { apn := ("internet").data, gmail := ("user@example.com").data,
    appPass := ("app-pass").data, toAddr := ("dest@example.com").data,
    toName := [], fromName := [], subject := ("Hi").data,
    body := ("line1\nline2").data }

/-- Variant of `cfgA` with the recipient cleared. -/
def cfgNoRecipient : Config := { cfgA with toAddr := [] }

/-- A modem that never delivers anything: every exchange times out. -/
def envNull : Env :=
  { netopenReply := none, cchstartReply := none, cchopenReply := none,
    sendOk := fun _ => false, reply := fun _ => none }

/-- A modem that accepts bring-up and TLS start, answers the channel-open
command with a bare `ERROR`, and then goes silent. -/
def envOpenErr : Env :=
  { netopenReply := some (("OK").data), cchstartReply := some (("OK").data),
    cchopenReply := some (("ERROR").data),
    sendOk := fun _ => true, reply := fun _ => none }

/-! ## Orchestrator theorems -/

/-- Claim C1: Cleanup is exactly matched to the stages actually opened, for
every configuration and every modem behaviour: `tearDownPDP` runs exactly
once iff the guard passed and PDP bring-up succeeded, `cchStop` exactly once
iff additionally the TLS start succeeded, and `cchClose` exactly once iff
additionally the channel open succeeded (in particular the channel is closed
before `sendEmail` returns whenever it was opened, whatever the SMTP session
did). -/
theorem sendEmail_teardown (c : Config) (e : Env) :
    ((sendEmail c e).2.count Call.tearDownPDPCall
        = if !guardFail c && (bringUpPDP c e).1 then 1 else 0)
      ∧ ((sendEmail c e).2.count Call.cchStopCall
        = if !guardFail c && (bringUpPDP c e).1 && (cchStart e).1 then 1 else 0)
      ∧ ((sendEmail c e).2.count (Call.cchCloseCall LINK_ID)
        = if !guardFail c && (bringUpPDP c e).1 && (cchStart e).1
            && cchOpen gmailHost 465 LINK_ID e then 1 else 0) := by
  cases hg : guardFail c <;>
  cases hp : (bringUpPDP c e).1 <;>
  cases ht : (cchStart e).1 <;>
  cases ho : cchOpen gmailHost 465 LINK_ID e <;>
    simp [sendEmail, hg, hp, ht, ho, List.count_cons, List.count_nil]

/-- Claim C2: If the account, the credential, or the recipient is empty,
`sendEmail` returns `false` without invoking any stage helper — and since
every modem access of `sendEmail` happens inside those helpers, with zero
modem I/O. -/
theorem sendEmail_failfast (c : Config) (e : Env)
    (h : c.gmail = [] ∨ c.appPass = [] ∨ c.toAddr = []) :
    sendEmail c e = (false, []) := by
  have hg : guardFail c = true := by
    rcases h with h | h | h <;> simp [guardFail, h]
  simp [sendEmail, hg]

/-- Witness for `sendEmail_failfast`: an otherwise complete configuration
with an empty recipient. -/
theorem sendEmail_failfast_witness :
    (cfgNoRecipient.gmail = [] ∨ cfgNoRecipient.appPass = []
        ∨ cfgNoRecipient.toAddr = [])
      ∧ sendEmail cfgNoRecipient envNull = (false, []) :=
  ⟨Or.inr (Or.inr rfl),
   sendEmail_failfast cfgNoRecipient envNull (Or.inr (Or.inr rfl))⟩

/-- Claim C9: Every channel-open call that `sendEmail` makes targets the fixed
host `"smtp.gmail.com"`, port 465 and link `LINK_ID = 0`; and whenever the
guard passes and bring-up and TLS start succeed, that open call is made.
The target is a literal of `sendEmail` (line 257), independent of the
`Config` the setters build, which is why the statement holds for every `c`. -/
theorem sendEmail_fixed_target (c : Config) (e : Env) :
    (∀ host port link, Call.cchOpenCall host port link ∈ (sendEmail c e).2 →
        host = gmailHost ∧ port = 465 ∧ link = LINK_ID)
      ∧ (guardFail c = false → (bringUpPDP c e).1 = true → (cchStart e).1 = true →
          Call.cchOpenCall gmailHost 465 LINK_ID ∈ (sendEmail c e).2) := by
  constructor
  · intro host port link hmem
    cases hg : guardFail c <;>
    cases hp : (bringUpPDP c e).1 <;>
    cases ht : (cchStart e).1 <;>
    cases ho : cchOpen gmailHost 465 LINK_ID e <;>
      simp [sendEmail, hg, hp, ht, ho] at hmem <;>
      tauto
  · intro hg hp ht
    cases ho : cchOpen gmailHost 465 LINK_ID e <;>
      simp [sendEmail, hg, hp, ht, ho]

/-- Witness for `sendEmail_fixed_target`: with `cfgA` and a modem accepting
bring-up and TLS start, the open call to `smtp.gmail.com:465` on link 0 is
in the trace. -/
theorem sendEmail_fixed_target_witness :
    Call.cchOpenCall gmailHost 465 LINK_ID ∈ (sendEmail cfgA envOpenErr).2 :=
  (sendEmail_fixed_target cfgA envOpenErr).2 (by decide) (by decide) (by decide)

/-- Claim C3 counterexample: A channel-open reply consisting of the bare error
string `ERROR` — which contains neither `OK` nor the `+CCHOPEN`
confirmation — makes `cchOpen` report *success*, not failure: `ERROR` is
itself in the accepting token set of line 124. -/
theorem cchOpen_error_counterexample :
    cchOpen gmailHost 465 LINK_ID envOpenErr = true
      ∧ isSubB (("OK").data) (("ERROR").data) = false
      ∧ isSubB (("+CCHOPEN").data) (("ERROR").data) = false := by
  decide

/-- Claim C3 amended: `cchOpen` succeeds iff the reply contains `OK`, the
`+CCHOPEN` confirmation, or the string `ERROR`; it fails only on timeout.
Consequently an error reply does not make `sendEmail` stop TLS and abort:
when bring-up and TLS start succeeded and `cchOpen` accepted (as it does on
an `ERROR` reply), the SMTP session is still attempted. -/
theorem cchOpen_accepts_error (host : List Char) (port link : Nat) (e : Env) :
    (∀ r, e.cchopenReply = some r →
        cchOpen host port link e
          = (isSubB (("OK").data) r || (isSubB (("+CCHOPEN").data) r
              || isSubB (("ERROR").data) r)))
      ∧ (e.cchopenReply = none → cchOpen host port link e = false)
      ∧ (∀ c : Config, guardFail c = false → (bringUpPDP c e).1 = true →
          (cchStart e).1 = true → cchOpen gmailHost 465 LINK_ID e = true →
          Call.smtpSessionCall ∈ (sendEmail c e).2) := by
  refine ⟨?_, ?_, ?_⟩
  · intro r hr
    simp [cchOpen, atAny, hr, cchopenTokens,
      (show (("OK").data.isEmpty) = false from rfl),
      (show (("+CCHOPEN").data.isEmpty) = false from rfl),
      (show (("ERROR").data.isEmpty) = false from rfl)]
  · intro hr
    simp [cchOpen, atAny, hr]
  · intro c hg hp ht ho
    simp [sendEmail, hg, hp, ht, ho]

/-- Witness for `cchOpen_accepts_error` at the concrete environment whose
channel-open reply is `ERROR`: the open reports success and `sendEmail`
proceeds to the SMTP session. -/
theorem cchOpen_accepts_error_witness :
    cchOpen gmailHost 465 LINK_ID envOpenErr
        = (isSubB (("OK").data) (("ERROR").data)
            || (isSubB (("+CCHOPEN").data) (("ERROR").data)
                || isSubB (("ERROR").data) (("ERROR").data)))
      ∧ Call.smtpSessionCall ∈ (sendEmail cfgA envOpenErr).2 := by
  constructor
  · exact (cchOpen_accepts_error gmailHost 465 LINK_ID envOpenErr).1
      (("ERROR").data) rfl
  · exact (cchOpen_accepts_error gmailHost 465 LINK_ID envOpenErr).2.2
      cfgA (by decide) (by decide) (by decide) (by decide)

/-- Claim C5 counterexample: On a modem that never answers `AT+NETOPEN`,
`bringUpPDP` reports failure after issuing the network-open command exactly
once — there is no second attempt and hence no retry loop; likewise
`cchStart` issues `AT+CCHSTART` exactly once before reporting failure. -/
theorem bringUpPDP_no_retry_counterexample :
    (bringUpPDP cfgA envNull).1 = false
      ∧ (bringUpPDP cfgA envNull).2.count ATCmd.netopen = 1
      ∧ (cchStart envNull).1 = false
      ∧ (cchStart envNull).2.count ATCmd.cchstartCmd = 1 := by
  decide

/-- Claim C5 amended: `bringUpPDP` and `cchStart` are single-shot: for every
configuration and every modem behaviour each issues its command sequence
once, with exactly one `AT+NETOPEN` (resp. `AT+CCHSTART`) attempt, and
returns that single attempt's verdict; there is no retry and no retry
delay. -/
theorem bringUp_single_attempt (c : Config) (e : Env) :
    ((bringUpPDP c e).2.count ATCmd.netopen = 1)
      ∧ ((bringUpPDP c e).1 = atAny e.netopenReply netopenTokens)
      ∧ ((cchStart e).2.count ATCmd.cchstartCmd = 1)
      ∧ ((cchStart e).1 = atAny e.cchstartReply cchstartTokens) := by
  refine ⟨?_, rfl, rfl, rfl⟩
  cases hap : c.apn.isEmpty <;>
    simp [bringUpPDP, hap, List.count_cons, List.count_nil]

/-! ## Payload structure -/

/-- The carried "previous character" after scanning a list (start value `d`). -/
def lastD (d : Char) : List Char → Char
  | [] => d
  | x :: xs => lastD x xs

theorem lastD_append (d : Char) (xs ys : List Char) :
    lastD d (xs ++ ys) = lastD (lastD d xs) ys := by
  induction xs generalizing d with
  | nil => rfl
  | cons x xs ih => simp [lastD, ih]

theorem hasBareLFAux_append (p : Char) (xs ys : List Char) :
    hasBareLFAux p (xs ++ ys)
      = (hasBareLFAux p xs || hasBareLFAux (lastD p xs) ys) := by
  induction xs generalizing p with
  | nil => simp [hasBareLFAux, lastD]
  | cons x xs ih => simp [hasBareLFAux, lastD, ih, Bool.or_assoc]

theorem hasBareLFAux_prev_irrel (p q : Char) (hp : (p == '\r') = false)
    (hq : (q == '\r') = false) (xs : List Char) :
    hasBareLFAux p xs = hasBareLFAux q xs := by
  cases xs with
  | nil => rfl
  | cons x l => simp [hasBareLFAux, hp, hq]

/-- The header block of the payload: the three composed headers, the fixed
MIME headers and the blank separator line. -/
def payloadHdr (c : Config) : List Char :=
  hdrFrom c ++ hdrTo c ++ hdrSubject c
    ++ ("MIME-Version: 1.0\r\n").data
    ++ ("Content-Type: text/plain; charset=UTF-8\r\n").data
    ++ ("\r\n").data

theorem composePayload_eq (c : Config) :
    composePayload c = payloadHdr c ++ (c.body ++ ("\r\n.\r\n").data) := by
  simp [composePayload, payloadHdr, List.append_assoc]

theorem payloadHdr_split (c : Config) :
    payloadHdr c
      = (hdrFrom c ++ hdrTo c ++ hdrSubject c ++ ("MIME-Version: 1.0\r\n").data
          ++ ("Content-Type: text/plain; charset=UTF-8\r\n").data) ++ ['\r', '\n'] := by
  simp [payloadHdr, List.append_assoc,
    (show ("\r\n").data = ['\r', '\n'] from rfl)]

theorem lastD_payloadHdr (c : Config) (d : Char) : lastD d (payloadHdr c) = '\n' := by
  rw [payloadHdr_split, lastD_append]
  rfl

/-- Claim C4 counterexample: With Scenario A's body `"line1\nline2"` the
composed payload itself contains a bare LF: no CRLF normalization happens,
so "the composer never receives a bare LF" fails on this input. -/
theorem composePayload_bare_lf_counterexample :
    hasBareLF cfgA.body = true ∧ hasBareLF (composePayload cfgA) = true := by
  decide

/-- Claim C4 amended: The body is embedded verbatim between the header block
and the terminator — so a bare LF in the body yields a bare LF in the
payload, instead of being normalized to CRLF — and the payload does end with
the terminator line consisting solely of `'.'` (the suffix `"\r\n.\r\n"`). -/
theorem composePayload_body_verbatim (c : Config) :
    (∃ p q, composePayload c = p ++ c.body ++ q)
      ∧ (∃ p, composePayload c = p ++ ("\r\n.\r\n").data)
      ∧ (hasBareLF c.body = true → hasBareLF (composePayload c) = true) := by
  refine ⟨⟨payloadHdr c, ("\r\n.\r\n").data, by
      rw [composePayload_eq]; simp [List.append_assoc]⟩,
    ⟨payloadHdr c ++ c.body, by
      rw [composePayload_eq]; simp [List.append_assoc]⟩, ?_⟩
  intro hb
  have hb' : hasBareLFAux '\n' c.body = true := by
    rw [hasBareLFAux_prev_irrel '\n' 'x' rfl rfl]
    exact hb
  show hasBareLFAux 'x' (composePayload c) = true
  rw [composePayload_eq, hasBareLFAux_append, lastD_payloadHdr,
    hasBareLFAux_append, hb']
  simp

/-- Witness for `composePayload_body_verbatim` at Scenario A's
configuration, whose body holds a bare LF. -/
theorem composePayload_body_verbatim_witness :
    hasBareLF cfgA.body = true
      ∧ hasBareLF (composePayload cfgA) = true
      ∧ ∃ p, composePayload cfgA = p ++ ("\r\n.\r\n").data := by
  have h := composePayload_body_verbatim cfgA
  exact ⟨by decide, h.2.2 (by decide), h.2.1⟩

/-- Variant of `cfgA` with non-empty sender and recipient names and an empty subject. -/
def cfgB : Config :=
  { cfgA with fromName := ("Alice").data, toName := ("Bob").data, subject := [] }

/-- A modem whose first SMTP-session reply is a `530` rejection line instead
of the `220` greeting, then silence. -/
def envBadGreeting : Env :=
  { netopenReply := some (("OK").data), cchstartReply := some (("OK").data),
    cchopenReply := some (("OK").data), sendOk := fun _ => true,
    reply := fun k => if k = 0 then some (("530 Access denied\r\n").data) else none }

/-- Claim C10: An empty sender name, recipient name or subject is replaced in
the composed payload by the fixed defaults `"ESP32"`, `"Recipient"` and
`"No Subject"` respectively, while a non-empty field is used verbatim. -/
theorem composePayload_defaults (c : Config) :
    (c.fromName = [] → ∃ q, composePayload c = ("From: ESP32 <").data ++ q)
      ∧ (¬(c.fromName = []) →
          ∃ q, composePayload c = ("From: ").data ++ c.fromName ++ (" <").data ++ q)
      ∧ (c.toName = [] →
          ∃ p q, composePayload c = p ++ ("To: Recipient <").data ++ q)
      ∧ (¬(c.toName = []) →
          ∃ p q, composePayload c = p ++ ("To: ").data ++ c.toName ++ (" <").data ++ q)
      ∧ (c.subject = [] →
          ∃ p q, composePayload c = p ++ ("Subject: No Subject\r\n").data ++ q)
      ∧ (¬(c.subject = []) →
          ∃ p q, composePayload c
            = p ++ ("Subject: ").data ++ c.subject ++ ("\r\n").data ++ q) := by
  refine ⟨?_, ?_, ?_, ?_, ?_, ?_⟩
  · intro h
    have hne : c.fromName.isEmpty = true := by simp [List.isEmpty_iff, h]
    refine ⟨c.gmail ++ (">\r\n").data ++ hdrTo c ++ hdrSubject c
      ++ ("MIME-Version: 1.0\r\n").data
      ++ ("Content-Type: text/plain; charset=UTF-8\r\n").data ++ ("\r\n").data
      ++ c.body ++ ("\r\n.\r\n").data, ?_⟩
    rw [(show ("From: ESP32 <").data
      = ("From: ").data ++ (("ESP32").data ++ (" <").data) from rfl)]
    simp [composePayload, hdrFrom, hne, List.append_assoc]
  · intro h
    have hne : c.fromName.isEmpty = false :=
      Bool.eq_false_iff.mpr (fun hh => h (List.isEmpty_iff.mp hh))
    refine ⟨c.gmail ++ (">\r\n").data ++ hdrTo c ++ hdrSubject c
      ++ ("MIME-Version: 1.0\r\n").data
      ++ ("Content-Type: text/plain; charset=UTF-8\r\n").data ++ ("\r\n").data
      ++ c.body ++ ("\r\n.\r\n").data, ?_⟩
    simp [composePayload, hdrFrom, hne, List.append_assoc]
  · intro h
    have hne : c.toName.isEmpty = true := by simp [List.isEmpty_iff, h]
    refine ⟨hdrFrom c, c.toAddr ++ (">\r\n").data ++ hdrSubject c
      ++ ("MIME-Version: 1.0\r\n").data
      ++ ("Content-Type: text/plain; charset=UTF-8\r\n").data ++ ("\r\n").data
      ++ c.body ++ ("\r\n.\r\n").data, ?_⟩
    rw [(show ("To: Recipient <").data
      = ("To: ").data ++ (("Recipient").data ++ (" <").data) from rfl)]
    simp [composePayload, hdrTo, hne, List.append_assoc]
  · intro h
    have hne : c.toName.isEmpty = false :=
      Bool.eq_false_iff.mpr (fun hh => h (List.isEmpty_iff.mp hh))
    refine ⟨hdrFrom c, c.toAddr ++ (">\r\n").data ++ hdrSubject c
      ++ ("MIME-Version: 1.0\r\n").data
      ++ ("Content-Type: text/plain; charset=UTF-8\r\n").data ++ ("\r\n").data
      ++ c.body ++ ("\r\n.\r\n").data, ?_⟩
    simp [composePayload, hdrTo, hne, List.append_assoc]
  · intro h
    have hne : c.subject.isEmpty = true := by simp [List.isEmpty_iff, h]
    refine ⟨hdrFrom c ++ hdrTo c, ("MIME-Version: 1.0\r\n").data
      ++ ("Content-Type: text/plain; charset=UTF-8\r\n").data ++ ("\r\n").data
      ++ c.body ++ ("\r\n.\r\n").data, ?_⟩
    rw [(show ("Subject: No Subject\r\n").data
      = ("Subject: ").data ++ (("No Subject").data ++ ("\r\n").data) from rfl)]
    simp [composePayload, hdrSubject, hne, List.append_assoc]
  · intro h
    have hne : c.subject.isEmpty = false :=
      Bool.eq_false_iff.mpr (fun hh => h (List.isEmpty_iff.mp hh))
    refine ⟨hdrFrom c ++ hdrTo c, ("MIME-Version: 1.0\r\n").data
      ++ ("Content-Type: text/plain; charset=UTF-8\r\n").data ++ ("\r\n").data
      ++ c.body ++ ("\r\n.\r\n").data, ?_⟩
    simp [composePayload, hdrSubject, hne, List.append_assoc]

/-- Witness for `composePayload_defaults`: `cfgA` has empty sender and
recipient names and a non-empty subject, `cfgB` the converse. -/
theorem composePayload_defaults_witness :
    (∃ q, composePayload cfgA = ("From: ESP32 <").data ++ q)
      ∧ (∃ p q, composePayload cfgA = p ++ ("To: Recipient <").data ++ q)
      ∧ (∃ p q, composePayload cfgA
          = p ++ ("Subject: ").data ++ cfgA.subject ++ ("\r\n").data ++ q)
      ∧ (∃ q, composePayload cfgB
          = ("From: ").data ++ cfgB.fromName ++ (" <").data ++ q)
      ∧ (∃ p q, composePayload cfgB
          = p ++ ("To: ").data ++ cfgB.toName ++ (" <").data ++ q)
      ∧ (∃ p q, composePayload cfgB = p ++ ("Subject: No Subject\r\n").data ++ q) :=
  ⟨(composePayload_defaults cfgA).1 rfl,
   (composePayload_defaults cfgA).2.2.1 rfl,
   (composePayload_defaults cfgA).2.2.2.2.2 (by decide),
   (composePayload_defaults cfgB).2.1 (by decide),
   (composePayload_defaults cfgB).2.2.2.1 (by decide),
   (composePayload_defaults cfgB).2.2.2.2.1 rfl⟩

/-- Witness for `smtpExpect_line_gating`: against a modem answering the
greeting with a `530` line, the session fails with no command issued. -/
theorem smtpExpect_line_gating_witness :
    smtpSession cfgA envBadGreeting = (false, (sessCmds cfgA).take 0) :=
  smtpExpect_line_gating.2 cfgA envBadGreeting 0 (by omega)
    (fun j hj => absurd hj (by omega)) (by decide)

end SMTPVerif
